/-
Verification of the motion-capture / calibration / experience subsystem of the
web-adventure repository, as a shallow embedding in Lean 4.

Numeric values are modelled by exact rationals in place of JavaScript doubles.
Irrational quantities computed by library calls (Math.sqrt distances, Math.exp
decay, Math.PI) enter the detector logic only as already-computed scalar inputs
or as explicitly quantified parameters; each such spot is documented at the
definition it concerns.
-/
import Mathlib

namespace WebAdventure

/-- Mean of a list of rationals, `sum / length`; this is the value the
`tf` tensor `mean()` call in `PlayerProfile.updateProfile` produces for the
corresponding sample array. -/
def listMean (l : List ℚ) : ℚ := l.sum / l.length

namespace PlayerProfile

/-- Calibration profile fields (`this.profile` in `PlayerProfile.js`,
constructor lines 4-10), without the `lastUpdated` wall-clock timestamp. -/
structure Profile where
  baselineShoulderDistance : ℚ
  punchVelocityThreshold : ℚ
  punchElbowAngleThreshold : ℚ
  walkingCadence : ℚ
deriving Repr, DecidableEq

/-- Rolling per-metric sample arrays (`this.samples`, lines 11-16). -/
structure Samples where
  shoulderDistances : List ℚ
  punchVelocities : List ℚ
  punchElbowAngles : List ℚ
  walkingCadences : List ℚ
deriving Repr, DecidableEq

/-- One tutorial step (`this.tutorialSteps` entries, lines 18-22): gating
action, target count and completion flag; the on-screen message is omitted. -/
structure TutorialStep where
  action : String
  count : ℕ
  complete : Bool
deriving Repr, DecidableEq

/-- Per-skill experience record (`this.experience[skill]`, lines 26-30). -/
structure SkillXP where
  xp : ℚ
  level : ℕ
deriving Repr, DecidableEq

/-- The three recognized skills of `this.experience`: walk, punch, mine. -/
structure Experience where
  walk : SkillXP
  punch : SkillXP
  mine : SkillXP
deriving Repr, DecidableEq

/-- One queued training row (lines 171 and 174). The third component is the
read of `this.baselineShoulderDistance`, a property that does not exist on
`PlayerProfile` (the numeric field lives at
`this.profile.baselineShoulderDistance`), so in JavaScript it is `undefined`;
it is modelled as `Option ℚ` with value `none`. -/
abbrev TrainingRow := ℚ × ℚ × Option ℚ

/-- Full mutable state of one `PlayerProfile` object, restricted to the fields
the claims touch. `tutorialActive` models `this.tutorialState === 'active'`
(the field is the string `'active'` or `null`); `modelReady` models
`this.model` being non-null after `initModel`; `fitPasses` counts the
`model.fit` passes initiated by `trainModel` (the fit itself is asynchronous
and opaque and is not modelled further). -/
structure State where
  profile : Profile
  samples : Samples
  tutorialActive : Bool
  tutorialSteps : List TutorialStep
  walkCount : ℕ
  turnCount : ℕ
  punchCount : ℕ
  experience : Experience
  totalSteps : ℕ
  modelReady : Bool
  trainingWalk : List TrainingRow
  trainingPunch : List TrainingRow
  fitPasses : ℕ
deriving Repr, DecidableEq

/-- Constructor defaults for the profile fields (lines 4-10). -/
def initProfile : Profile :=
  { baselineShoulderDistance := 1/5
    punchVelocityThreshold := 1/2
    punchElbowAngleThreshold := 20
    walkingCadence := 1/2 }

/-- Constructor tutorial steps (lines 18-22). -/
def initSteps : List TutorialStep :=
  [⟨"walk", 10, false⟩, ⟨"turn", 10, false⟩, ⟨"punch", 10, false⟩]

/-- Constructor state of a fresh `PlayerProfile` (with empty persisted
storage, so `loadProfile` changes nothing); `modelReady` records whether
`initModel` succeeded in creating the TensorFlow model. -/
def initState (modelReady : Bool) : State :=
  { profile := initProfile
    samples := ⟨[], [], [], []⟩
    tutorialActive := false
    tutorialSteps := initSteps
    walkCount := 0
    turnCount := 0
    punchCount := 0
    experience := ⟨⟨0, 1⟩, ⟨0, 1⟩, ⟨0, 1⟩⟩
    totalSteps := 0
    modelReady := modelReady
    trainingWalk := []
    trainingPunch := []
    fitPasses := 0 }

/-- The `validTypes` list of `recordSample` (line 136). -/
def validTypes : List String :=
  ["shoulderDistance", "walk", "turn", "punchVelocity", "punchElbowAngle"]

/-- The chained conditional of lines 141-145 picking the backing sample
array for a sample kind; note both `shoulderDistance` and `turn` select
`shoulderDistances`. -/
def sampleKey (type : String) : Option String :=
  if type = "shoulderDistance" then some "shoulderDistances"
  else if type = "walk" then some "walkingCadences"
  else if type = "turn" then some "shoulderDistances"
  else if type = "punchVelocity" then some "punchVelocities"
  else if type = "punchElbowAngle" then some "punchElbowAngles"
  else none

/-- Read the sample array named by a key string. -/
def Samples.get (sm : Samples) (key : String) : List ℚ :=
  if key = "shoulderDistances" then sm.shoulderDistances
  else if key = "walkingCadences" then sm.walkingCadences
  else if key = "punchVelocities" then sm.punchVelocities
  else sm.punchElbowAngles

/-- Write the sample array named by a key string. -/
def Samples.set (sm : Samples) (key : String) (l : List ℚ) : Samples :=
  if key = "shoulderDistances" then { sm with shoulderDistances := l }
  else if key = "walkingCadences" then { sm with walkingCadences := l }
  else if key = "punchVelocities" then { sm with punchVelocities := l }
  else { sm with punchElbowAngles := l }

/-- The non-tutorial append of `recordSample` (lines 162-165): push, then
`shift()` the oldest element away when the window exceeds 100 entries. -/
def pushDrop (l : List ℚ) (v : ℚ) : List ℚ :=
  let l' := l ++ [v]
  if 100 < l'.length then l'.tail else l'

/-- The mean-recompute of every threshold (`updateProfile`, lines 212-249):
each profile field becomes the mean of its sample array, or the fixed default
when that array is empty; `lastUpdated` and the best-effort `saveProfile`
persistence are not modelled. -/
def updateProfileS (s : State) : State :=
  let f : List ℚ → ℚ → ℚ := fun l d => if l.isEmpty then d else listMean l
  { s with profile :=
      { baselineShoulderDistance := f s.samples.shoulderDistances (1/5)
        punchVelocityThreshold := f s.samples.punchVelocities (1/2)
        punchElbowAngleThreshold := f s.samples.punchElbowAngles 20
        walkingCadence := f s.samples.walkingCadences (1/2) } }

/-- The instruction refresh (`updateTutorialInstructions`, lines 123-133):
when no incomplete step remains the tutorial deactivates and a full profile
recompute runs; otherwise only the displayed message changes (no state
effect modelled). -/
def updateTutorialInstructionsS (s : State) : State :=
  match s.tutorialSteps.find? (fun st => !st.complete) with
  | none => updateProfileS { s with tutorialActive := false }
  | some _ => s

/-- Tutorial activation (`startTutorial`, lines 116-121): reset all counters
and completion flags, activate gating, refresh instructions. -/
def startTutorialS (s : State) : State :=
  updateTutorialInstructionsS
    { s with tutorialActive := true
             walkCount := 0
             turnCount := 0
             punchCount := 0
             tutorialSteps := s.tutorialSteps.map (fun st => { st with complete := false }) }

/-- Read `this.tutorialCounts[a]` for one of the three step actions. -/
def getCount (s : State) (a : String) : ℕ :=
  if a = "walk" then s.walkCount
  else if a = "turn" then s.turnCount
  else s.punchCount

/-- Increment `this.tutorialCounts[a]`. -/
def bumpCount (s : State) (a : String) : State :=
  if a = "walk" then { s with walkCount := s.walkCount + 1 }
  else if a = "turn" then { s with turnCount := s.turnCount + 1 }
  else { s with punchCount := s.punchCount + 1 }

/-- Set `complete` on the tutorial step whose action is `a` (line 157). -/
def markComplete (steps : List TutorialStep) (a : String) : List TutorialStep :=
  steps.map (fun st => if st.action = a then { st with complete := true } else st)

/-- The body of `trainModel` (lines 69-92) as far as control flow goes: it
returns early when the model is absent and otherwise immediately starts a
`model.fit` pass — there is no interval check, no minimum queue size, no
busy flag and no pending-rerun coalescing anywhere on this path. Only the
initiation of the pass is modelled (the asynchronous fit body, its epoch
callbacks and `saveModel` are opaque external work). -/
def trainModelS (s : State) : State :=
  if s.modelReady then { s with fitPasses := s.fitPasses + 1 } else s

/-- The last-element-or-20 read of line 174:
`this.samples.punchElbowAngles[length - 1] || 20`, where `||` also replaces
a last element equal to 0. -/
def lastAngleOr20 (l : List ℚ) : ℚ :=
  match l.getLast? with
  | none => 20
  | some a => if a = 0 then 20 else a

/-- The buffering / tutorial / recompute stage of `recordSample`
(lines 151-167), for a recognized kind whose backing array key is `key`.
With an active tutorial, a sample whose kind matches an incomplete step is
pushed (with no capacity trim), bumps that step's counter, completes the
step at its target and refreshes the instructions; any other sample is
dropped. With no active tutorial the sample is pushed with drop-oldest
trimming and an immediate recompute follows. -/
def recordSampleCore (s : State) (type key : String) (value : ℚ) : State :=
  if s.tutorialActive then
    match s.tutorialSteps.find? (fun st => st.action = type) with
    | some st =>
      if st.complete then s
      else
        let sa := { s with samples := s.samples.set key (s.samples.get key ++ [value]) }
        let sb := bumpCount sa type
        let sc :=
          if st.count ≤ getCount sb type then { sb with tutorialSteps := markComplete sb.tutorialSteps type }
          else sb
        updateTutorialInstructionsS sc
    | none => s
  else
    updateProfileS { s with samples := s.samples.set key (pushDrop (s.samples.get key) value) }

/-- Full `recordSample(type, value)` (lines 135-177): unrecognized kinds
return early; otherwise the buffering stage runs, and the model-training
block of lines 169-176 then runs for `walk` and `punchVelocity` kinds. -/
def recordSample (s : State) (type : String) (value : ℚ) : State :=
  if type ∉ validTypes then s else
  match sampleKey type with
  | none => s
  | some key =>
    let s1 := recordSampleCore s type key value
    if type = "walk" then
      trainModelS { s1 with trainingWalk := s1.trainingWalk ++ [(value, 0, none)] }
    else if type = "punchVelocity" then
      trainModelS { s1 with trainingPunch := s1.trainingPunch ++ [(value, lastAngleOr20 s1.samples.punchElbowAngles, none)] }
    else s1

/-- Fold a list of `(kind, value)` calls through `recordSample`. -/
def runSamples (s : State) (ops : List (String × ℚ)) : State :=
  ops.foldl (fun acc p => recordSample acc p.1 p.2) s

/-- The step the tutorial is currently teaching: the first incomplete step
(the one `updateTutorialInstructions` displays), by its action name. -/
def pendingAction (s : State) : Option String :=
  (s.tutorialSteps.find? (fun st => !st.complete)).map (fun st => st.action)

/-- All four sample windows hold at most 100 entries. -/
def Samples.bounded (sm : Samples) : Prop :=
  sm.shoulderDistances.length ≤ 100 ∧ sm.punchVelocities.length ≤ 100 ∧
  sm.punchElbowAngles.length ≤ 100 ∧ sm.walkingCadences.length ≤ 100

/-- A state whose walking-cadence window is exactly full, used to exhibit
the drop-oldest behaviour on a concrete input. -/
def capacityWitnessState : State :=
  { initState true with samples :=
      { shoulderDistances := [], punchVelocities := [], punchElbowAngles := []
        walkingCadences := List.replicate 100 0 } }

/-- Fixed cumulative XP thresholds (`this.levelThresholds`, line 31). -/
def levelThresholds : List ℚ := [0, 100, 250, 500, 1000, 2000]

/-- The scanning loop of `updateLevel` (lines 198-205): walk the thresholds
in order starting at index 1, setting `level` to index+1 while `xp` meets the
threshold, stopping at the first miss. -/
def levelScan (xp : ℚ) : ℕ → List ℚ → ℕ → ℕ
  | _, [], level => level
  | i, t :: rest, level => if t ≤ xp then levelScan xp (i + 1) rest (i + 1) else level

/-- Level computed by `updateLevel` from an XP total. -/
def computeLevel (xp : ℚ) : ℕ := levelScan xp 1 (levelThresholds.drop 1) 1

/-- `updateLevel(action)` effect on one skill (lines 196-210): the level is
recomputed from the fixed thresholds and only ever raised; xp is untouched. -/
def updateLevelSkill (sk : SkillXP) : SkillXP :=
  let lvl := computeLevel sk.xp
  if sk.level < lvl then { sk with level := lvl } else sk

/-- Read `this.experience[a]`; `none` for unrecognized skills. -/
def Experience.find? (e : Experience) (a : String) : Option SkillXP :=
  if a = "walk" then some e.walk
  else if a = "punch" then some e.punch
  else if a = "mine" then some e.mine
  else none

/-- Write `this.experience[a]` for a recognized skill. -/
def Experience.update (e : Experience) (a : String) (sk : SkillXP) : Experience :=
  if a = "walk" then { e with walk := sk }
  else if a = "punch" then { e with punch := sk }
  else if a = "mine" then { e with mine := sk }
  else e

/-- `recordAction(action, xp)` (lines 179-194): no-op for unrecognized
skills; otherwise add the XP and recompute the level; for `walk`,
additionally advance `totalSteps` and award a 50 XP bonus, resetting the
counter, once `totalSteps * 0.7 / 1609.34` miles reaches the 1-mile
threshold. -/
def recordAction (s : State) (action : String) (xp : ℚ) : State :=
  match s.experience.find? action with
  | none => s
  | some sk =>
    let s' := { s with experience := s.experience.update action (updateLevelSkill { sk with xp := sk.xp + xp }) }
    if action = "walk" then
      let total : ℕ := s'.totalSteps + 1
      let miles : ℚ := ((total : ℚ) * (7/10)) / (160934/100)
      if 1 ≤ miles then
        let wsk := s'.experience.walk
        { s' with totalSteps := 0
                  experience := s'.experience.update "walk" (updateLevelSkill { wsk with xp := wsk.xp + 50 }) }
      else { s' with totalSteps := total }
    else s'

end PlayerProfile

namespace MotionCapture

/-- Planar coordinates of one smoothed landmark; only x and y feed the
walking and turning logic of `combineResults`. -/
structure Pt where
  x : ℚ
  y : ℚ
deriving Repr, DecidableEq

/-- The liveness test used throughout `combineResults`
(`kp.x !== 0 || kp.y !== 0`): a landmark participates exactly when it is not
the all-zero placeholder. -/
def Pt.usable (p : Pt) : Bool := p.x ≠ 0 || p.y ≠ 0

/-- Step cooldown in milliseconds (`this.stepCooldown`, line 12). -/
def stepCooldown : ℚ := 300

/-- Knee-raise threshold (`kneeThreshold`, line 379). -/
def kneeThreshold : ℚ := -(1/20)

/-- Hip oscillation threshold (`hipThreshold`, line 410). -/
def hipThreshold : ℚ := 1/50

/-- Walk-detector state: the two knee latches, the cooldown timestamp and
the hip-fallback memory, all fields of the `MotionCapture` object
(constructor lines 11-14 and 47-50). `steps` counts emitted Step impulses
(each `this.player.velocity.set(sin(yaw)·speed, 0, cos(yaw)·speed)` call);
`walkSamples` logs the cadence values passed to
`profile.recordSample('walk', ·)`; both are event bookkeeping, not source
variables. -/
structure WalkState where
  leftKneeUp : Bool
  rightKneeUp : Bool
  lastStepTime : ℚ
  lastHipStepTime : ℚ
  lastLeftHipY : ℚ
  lastRightHipY : ℚ
  hipOscillationCount : ℕ
  steps : ℕ
  walkSamples : List ℚ
deriving Repr, DecidableEq

/-- Constructor values of the walk-detector fields. -/
def initWalkState : WalkState :=
  { leftKneeUp := false, rightKneeUp := false, lastStepTime := 0
    lastHipStepTime := 0, lastLeftHipY := 0, lastRightHipY := 0
    hipOscillationCount := 0, steps := 0, walkSamples := [] }

/-- Per-frame input to the walking section: the frame timestamp
(`performance.now()`) and the smoothed knee and hip landmarks (indices
25, 26, 23, 24). -/
structure WalkFrame where
  now : ℚ
  leftKnee : Pt
  rightKnee : Pt
  leftHip : Pt
  rightHip : Pt
deriving Repr, DecidableEq

/-- Record one accepted step: set the given latch, emit the Step impulse,
stamp the cooldown, record the cadence sample and advance the hip timer
(the shared body of the four accepting branches, lines 381-403 and
412-436). -/
def acceptStep (left : Bool) (now : ℚ) (s : WalkState) : WalkState :=
  { s with leftKneeUp := if left then true else s.leftKneeUp
           rightKneeUp := if left then s.rightKneeUp else true
           steps := s.steps + 1
           lastStepTime := now
           walkSamples := s.walkSamples ++ [(now - s.lastHipStepTime) / 1000]
           lastHipStepTime := now }

/-- Walking section of `combineResults` (lines 369-442). The guard of
line 375 reduces to usability of both knees because the smoothed-landmark
entries are always objects; the hip-fallback guard likewise. The knee
branch accepts a left step when the left knee height drops below the
threshold, the left latch is clear and strictly more than 300 ms elapsed
since the last accepted step, else tries the right knee; afterwards any
knee at or above the threshold clears its latch. The fallback accepts on
downward hip deltas above 0.02 with the same latches and cooldown, counts
oscillations, and refreshes the hip memory (`lastLeftHipY || leftHip.y`
replaces a zero memory by the current value). -/
def walkStep (f : WalkFrame) (s : WalkState) : WalkState :=
  if f.leftKnee.usable && f.rightKnee.usable then
    let leftKneeHeight := f.leftKnee.y - f.leftHip.y
    let rightKneeHeight := f.rightKnee.y - f.rightHip.y
    let s1 :=
      if leftKneeHeight < kneeThreshold ∧ s.leftKneeUp = false ∧ stepCooldown < f.now - s.lastStepTime then
        acceptStep true f.now s
      else if rightKneeHeight < kneeThreshold ∧ s.rightKneeUp = false ∧ stepCooldown < f.now - s.lastStepTime then
        acceptStep false f.now s
      else s
    let s2 := if kneeThreshold ≤ leftKneeHeight then { s1 with leftKneeUp := false } else s1
    if kneeThreshold ≤ rightKneeHeight then { s2 with rightKneeUp := false } else s2
  else if f.leftHip.usable && f.rightHip.usable then
    let leftHipYDelta := f.leftHip.y - (if s.lastLeftHipY = 0 then f.leftHip.y else s.lastLeftHipY)
    let rightHipYDelta := f.rightHip.y - (if s.lastRightHipY = 0 then f.rightHip.y else s.lastRightHipY)
    let s1 :=
      if hipThreshold < leftHipYDelta ∧ s.leftKneeUp = false ∧ stepCooldown < f.now - s.lastStepTime then
        { acceptStep true f.now s with hipOscillationCount := s.hipOscillationCount + 1 }
      else if hipThreshold < rightHipYDelta ∧ s.rightKneeUp = false ∧ stepCooldown < f.now - s.lastStepTime then
        { acceptStep false f.now s with hipOscillationCount := s.hipOscillationCount + 1 }
      else s
    let s2 := if leftHipYDelta ≤ hipThreshold then { s1 with leftKneeUp := false } else s1
    let s3 := if rightHipYDelta ≤ hipThreshold then { s2 with rightKneeUp := false } else s2
    { s3 with lastLeftHipY := f.leftHip.y, lastRightHipY := f.rightHip.y }
  else s

/-- Fold a list of frames through the walking section. -/
def runWalk (fs : List WalkFrame) (s : WalkState) : WalkState :=
  fs.foldl (fun acc f => walkStep f acc) s

/-- A scripted frame dropping one knee: knees sit at x = 1/2 (hence always
usable); hips rest at y = 1/2; the dropped knee has y = 2/5, giving knee
height -1/10 < -1/20, while the other knee's height is 0. -/
def dropFrame (t : ℚ) (leftSide : Bool) : WalkFrame :=
  { now := t
    leftKnee := ⟨1/2, if leftSide then 2/5 else 1/2⟩
    rightKnee := ⟨1/2, if leftSide then 1/2 else 2/5⟩
    leftHip := ⟨1/2, 1/2⟩
    rightHip := ⟨1/2, 1/2⟩ }

/-- Alternating left/right knee-drop script, one drop frame per listed
timestamp, starting with the side given. -/
def altScript : List ℚ → Bool → List WalkFrame
  | [], _ => []
  | t :: ts, leftSide => dropFrame t leftSide :: altScript ts (!leftSide)

/-- Bootstrap sample count (`this.sampleCount`, line 40). -/
def sampleCount : ℕ := 10

/-- Turn-distance ratio threshold (`this.distanceThreshold`, line 41). -/
def distanceThreshold : ℚ := 9/10

/-- Deep-turn ratio threshold (`this.profileThreshold`, line 42). -/
def profileThreshold : ℚ := 1/2

/-- Turn-detector state (constructor lines 38-44 plus `player.targetYaw`).
`turnSamples` and `shoulderSamples` log the values passed to
`profile.recordSample('turn', ·)` and `('shoulderDistance', ·)`. -/
structure TurnState where
  distanceSamples : List ℚ
  baselineShoulderDistance : ℚ
  lastLeftShoulderX : ℚ
  lastRightShoulderX : ℚ
  targetYaw : ℚ
  useShoulders : Bool
  turnSamples : List ℚ
  shoulderSamples : List ℚ
deriving Repr, DecidableEq

/-- Per-frame input to the turning section: the smoothed shoulder landmarks
(indices 11 and 12) and their Euclidean distance. The source computes
`distance = Math.sqrt((rx-lx)^2 + (ry-ly)^2)` (lines 449-452); the square
root being irrational, the already-computed distance is taken as an input
scalar here, and the claims quantify over it directly. -/
structure TurnFrame where
  leftShoulder : Pt
  rightShoulder : Pt
  distance : ℚ
deriving Repr, DecidableEq

/-- Frame-to-frame left-shoulder horizontal delta (line 467), with the `||`
fallback replacing a zero memory by the current x. -/
def lDelta (f : TurnFrame) (s : TurnState) : ℚ :=
  f.leftShoulder.x - (if s.lastLeftShoulderX = 0 then f.leftShoulder.x else s.lastLeftShoulderX)

/-- Frame-to-frame right-shoulder horizontal delta (line 468). -/
def rDelta (f : TurnFrame) (s : TurnState) : ℚ :=
  f.rightShoulder.x - (if s.lastRightShoulderX = 0 then f.rightShoulder.x else s.lastRightShoulderX)

/-- Turning section of `combineResults` (lines 444-502). `piv` stands for
`Math.PI`, which enters only through the yaw clamp bounds; every theorem
below quantifies over it (or fixes an explicit rational stand-in in a
closed evaluation), so the statements hold in particular at the real π.
During bootstrap each valid frame pushes its distance; the tenth sets the
baseline to the mean (the source also persists it to the profile, not
modelled here). Post-bootstrap, a ratio below 0.9 with `useShoulders`
produces a rotation whose direction needs one shoulder's horizontal delta
to strictly dominate in the turn direction, applied through a ±90° clamp
around `piv` unless the ratio is below 0.5, and records a 'turn' sample;
the shoulder memory always refreshes, and once the bootstrap is full every
valid frame records a 'shoulderDistance' sample. -/
def turnStep (piv : ℚ) (f : TurnFrame) (s : TurnState) : TurnState :=
  if f.leftShoulder.usable && f.rightShoulder.usable then
    let s1 :=
      if s.distanceSamples.length < sampleCount then
        let ds := s.distanceSamples ++ [f.distance]
        if ds.length = sampleCount then
          { s with distanceSamples := ds, baselineShoulderDistance := ds.sum / (sampleCount : ℚ) }
        else { s with distanceSamples := ds }
      else
        let ratio := f.distance / s.baselineShoulderDistance
        if s.useShoulders && ratio < distanceThreshold then
          let intensity := min ((1 - ratio) * 2) 2
          let rotationSpeed :=
            if |rDelta f s| < |lDelta f s| ∧ 0 < lDelta f s then -(intensity * (1/10))
            else if |lDelta f s| < |rDelta f s| ∧ rDelta f s < 0 then intensity * (1/10)
            else 0
          let s' :=
            if ratio < profileThreshold then { s with targetYaw := s.targetYaw + rotationSpeed }
            else
              let newYaw := max (piv - piv / 2) (min (piv + piv / 2) (s.targetYaw + rotationSpeed))
              { s with targetYaw := newYaw }
          { s' with turnSamples := s'.turnSamples ++ [f.distance] }
        else s
    let s2 := { s1 with lastLeftShoulderX := f.leftShoulder.x
                        lastRightShoulderX := f.rightShoulder.x }
    if sampleCount ≤ s2.distanceSamples.length then
      { s2 with shoulderSamples := s2.shoulderSamples ++ [f.distance] }
    else s2
  else s

/-- Hand tag of a resolved punch. -/
inductive Hand where
  | left
  | right
deriving Repr, DecidableEq

/-- Inputs to the punch resolution of `combineResults` (lines 578-605):
the per-hand forward velocities and elbow angles computed at lines 530-573
(dot products, `Math.acos` degrees — irrational, hence taken as scalar
inputs), the current inter-shoulder distance, the stored baseline, and the
two profile thresholds. -/
structure PunchInput where
  leftVel : ℚ
  leftAngle : ℚ
  rightVel : ℚ
  rightAngle : ℚ
  dist : ℚ
  baseline : ℚ
  velThreshold : ℚ
  angleThreshold : ℚ
deriving Repr, DecidableEq

/-- The guard of lines 580-583: `baseline ? dist / baseline : 1`, where a
zero (falsy) baseline forces ratio 1. -/
def ratioOf (p : PunchInput) : ℚ :=
  if p.baseline = 0 then 1 else p.dist / p.baseline

/-- Left-hand firing condition (lines 585-589). -/
def leftQualifies (p : PunchInput) : Prop :=
  p.velThreshold < p.leftVel ∧ p.angleThreshold < p.leftAngle ∧ ratioOf p < distanceThreshold

/-- Right-hand firing condition (lines 595-599). -/
def rightQualifies (p : PunchInput) : Prop :=
  p.velThreshold < p.rightVel ∧ p.angleThreshold < p.rightAngle ∧ ratioOf p < distanceThreshold

instance (p : PunchInput) : Decidable (leftQualifies p) := by
  unfold leftQualifies; infer_instance

instance (p : PunchInput) : Decidable (rightQualifies p) := by
  unfold rightQualifies; infer_instance

/-- The samples `recordSample` receives for a given resolution. -/
def punchSamples (p : PunchInput) : Option Hand → List (String × ℚ)
  | none => []
  | some Hand.left => [("punchVelocity", p.leftVel), ("punchElbowAngle", p.leftAngle)]
  | some Hand.right => [("punchVelocity", p.rightVel), ("punchElbowAngle", p.rightAngle)]

/-- Punch resolution (lines 585-605): an if / else-if chain trying the left
hand first, then the right; the resolved hand's hit-test (`processPunch`)
runs and its velocity and elbow angle are recorded to the profile. Returns
the resolved hand and the recorded samples. -/
def punchStep (p : PunchInput) : Option Hand × List (String × ℚ) :=
  if leftQualifies p then
    (some Hand.left, punchSamples p (some Hand.left))
  else if rightQualifies p then
    (some Hand.right, punchSamples p (some Hand.right))
  else (none, [])

/-- Full 3-component coordinates of a fused or smoothed landmark. -/
structure Pt3 where
  x : ℚ
  y : ℚ
  z : ℚ
deriving Repr, DecidableEq

/-- One MediaPipe landmark (normalized coordinates plus visibility). -/
structure MpKp where
  x : ℚ
  y : ℚ
  z : ℚ
  visibility : ℚ
deriving Repr, DecidableEq

/-- One MoveNet keypoint (pixel-space coordinates, its own id space, and a
score). The source reads `kp.z || 0`; with a rational z this is the
identity, so z is kept as given. -/
structure TfKp where
  id : ℕ
  x : ℚ
  y : ℚ
  z : ℚ
  score : ℚ
deriving Repr, DecidableEq

/-- The fixed MoveNet-to-MediaPipe index remap (`keypointMap`,
lines 288-299); unmapped ids are ignored. All mapped values are nonzero, so
the JavaScript truthiness test `if (mappedIndex && ...)` is exactly
definedness here. -/
def keypointMap : ℕ → Option ℕ
  | 5 => some 11
  | 6 => some 12
  | 11 => some 23
  | 12 => some 24
  | 13 => some 25
  | 14 => some 26
  | 7 => some 13
  | 8 => some 14
  | 9 => some 15
  | 10 => some 16
  | _ => none

/-- MediaPipe blending loop (lines 302-308): visit the primary landmarks in
order, overwriting slot i with the landmark when its visibility strictly
exceeds 0.5. (MediaPipe delivers exactly 33 landmarks, matching the 33
pre-allocated slots; `List.set` out of range is a no-op.) -/
def applyMpFrom : ℕ → List MpKp → List Pt3 → List Pt3
  | _, [], lms => lms
  | i, kp :: rest, lms =>
      applyMpFrom (i + 1) rest
        (if 1/2 < kp.visibility then lms.set i ⟨kp.x, kp.y, kp.z⟩ else lms)

/-- Pixel-to-normalized conversion of a MoveNet keypoint (lines 314-318). -/
def tfNorm (w h : ℚ) (kp : TfKp) : Pt3 := ⟨kp.x / w, kp.y / h, kp.z⟩

/-- MoveNet blending loop (lines 310-328): each keypoint with a mapped index
and score strictly above 0.5 is normalized by the frame dimensions; when the
slot already holds a live value the two are averaged per axis, otherwise the
normalized keypoint replaces the slot. (Mapped indices 11..26 always lie
inside the 33-slot array; the impossible out-of-range read is a no-op.) -/
def applyTf (w h : ℚ) : List TfKp → List Pt3 → List Pt3
  | [], lms => lms
  | kp :: rest, lms =>
      applyTf w h rest
        (match keypointMap kp.id with
         | none => lms
         | some idx =>
           if 1/2 < kp.score then
             match lms[idx]? with
             | none => lms
             | some cur =>
               if cur.x ≠ 0 ∨ cur.y ≠ 0 then
                 lms.set idx ⟨(cur.x + (tfNorm w h kp).x) / 2, (cur.y + (tfNorm w h kp).y) / 2,
                              (cur.z + (tfNorm w h kp).z) / 2⟩
               else lms.set idx (tfNorm w h kp)
           else lms)

/-- Smoothing factor (`this.smoothingFactor`, line 35). -/
def smoothingFactor : ℚ := 7/10

/-- Exponential smoothing pass (lines 330-337): slots holding a live fused
value are blended into the persistent smoothed skeleton with factor 0.7;
all-zero slots leave their smoothed entry untouched. -/
def smooth : List Pt3 → List Pt3 → List Pt3
  | [], _ => []
  | p :: prev, [] => p :: prev
  | p :: prev, k :: fused =>
      (if k.x ≠ 0 ∨ k.y ≠ 0 then
         Pt3.mk (smoothingFactor * p.x + (1 - smoothingFactor) * k.x)
                (smoothingFactor * p.y + (1 - smoothingFactor) * k.y)
                (smoothingFactor * p.z + (1 - smoothingFactor) * k.z)
       else p) :: smooth prev fused

/-- One `combineResults` pass through fusion and smoothing (lines 279-337):
with no fresh result from either source the method returns at line 280,
leaving the smoothed skeleton unchanged; otherwise 33 zeroed slots are
filled from MediaPipe, blended with MoveNet, and smoothed into the previous
skeleton. -/
def combineFrame (w h : ℚ) (mp : Option (List MpKp)) (tfr : Option (List TfKp))
    (prev : List Pt3) : List Pt3 :=
  match mp, tfr with
  | none, none => prev
  | some m, none => smooth prev (applyMpFrom 0 m (List.replicate 33 (Pt3.mk 0 0 0)))
  | none, some t => smooth prev (applyTf w h t (List.replicate 33 (Pt3.mk 0 0 0)))
  | some m, some t => smooth prev (applyTf w h t (applyMpFrom 0 m (List.replicate 33 (Pt3.mk 0 0 0))))

/-- Decidable test: the primary source offers no usable keypoint at slot i
(absent frame, missing entry, or visibility at most 0.5). -/
def mpUnusableAt : Option (List MpKp) → ℕ → Bool
  | none, _ => true
  | some m, i =>
    match m[i]? with
    | none => true
    | some kp => kp.visibility ≤ 1/2

/-- Decidable test: the secondary source offers no usable keypoint mapping
to slot i (absent frame, or every keypoint remapped to i has score at most
0.5). -/
def tfUnusableAt : Option (List TfKp) → ℕ → Bool
  | none, _ => true
  | some t, i => t.all (fun kp => keypointMap kp.id ≠ some i || kp.score ≤ 1/2)

end MotionCapture

namespace Player

/-- A three-component velocity vector (`THREE.Vector3`). -/
structure Vec3 where
  x : ℚ
  y : ℚ
  z : ℚ
deriving Repr, DecidableEq

/-- Scalar multiplication (`velocity.multiplyScalar(decay)`). -/
def Vec3.scale (c : ℚ) (v : Vec3) : Vec3 := ⟨c * v.x, c * v.y, c * v.z⟩

/-- Squared Euclidean length; `velocity.length() > 0` holds exactly when
the squared length is positive, so the irrational square root never needs
to be taken. -/
def Vec3.len2 (v : Vec3) : ℚ := v.x ^ 2 + v.y ^ 2 + v.z ^ 2

/-- Player state touched by the motion branch of `Player.update`
(src/unnamed/part_000, second `Player.js` variant, lines 251-293).
`walkingAwards` logs the amounts passed to `profile.awardXP('walking', ·)`;
`hasAwardXP` below models `this.profile && typeof this.profile.awardXP ===
'function'` — with the repository's `PlayerProfile`, which defines
`recordAction` but no `awardXP`, that guard is false. -/
structure PState where
  velocity : Vec3
  stepCount : ℕ
  walkingAwards : List ℚ
deriving Repr, DecidableEq

/-- Motion branch of `Player.update` (`useMotion` true, lines 282-293),
after the exponential velocity decay of lines 254-256. The decay factor
`Math.exp(-(now - lastStep)/500)` is irrational and strictly positive; it
is taken as the parameter `decay`, and the claims quantify over positive
values. When the decayed velocity is still nonzero, the frame counter
advances and — only if the profile object exposes `awardXP` — a +1
'walking' XP request is issued, plus a +100 request with a counter reset
once the counter reaches 2112. The terrain/rotation work of `update` has
no effect on these fields and is not modelled. -/
def updateMotion (hasAwardXP : Bool) (decay : ℚ) (s : PState) : PState :=
  let sv := { s with velocity := Vec3.scale decay s.velocity }
  if 0 < sv.velocity.len2 then
    let sc := { sv with stepCount := sv.stepCount + 1 }
    if hasAwardXP then
      let sa := { sc with walkingAwards := sc.walkingAwards ++ [1] }
      if 2112 ≤ sa.stepCount then
        { sa with walkingAwards := sa.walkingAwards ++ [100], stepCount := 0 }
      else sa
    else sc
  else sv

end Player

/-! Theorems. -/

/-- C2 counterexample: from the fresh experience state {xp: 0, level: 1},
awarding 250 XP to the walking skill (`recordAction('walk', 250)`) does
reach level 3, but leaves the xp at 250 rather than the claimed 50:
`updateLevel` never subtracts a consumed threshold from xp. -/
theorem recordAction_walk250_keeps_xp :
    (PlayerProfile.recordAction (PlayerProfile.initState true) "walk" 250).experience.walk.xp = 250 ∧
    (PlayerProfile.recordAction (PlayerProfile.initState true) "walk" 250).experience.walk.level = 3 ∧
    (PlayerProfile.recordAction (PlayerProfile.initState true) "walk" 250).experience.walk.xp ≠ 50 := by
  norm_num [PlayerProfile.recordAction, PlayerProfile.Experience.find?,
    PlayerProfile.Experience.update, PlayerProfile.initState, PlayerProfile.initProfile,
    PlayerProfile.initSteps, PlayerProfile.updateLevelSkill, PlayerProfile.computeLevel,
    PlayerProfile.levelThresholds, PlayerProfile.levelScan]

/-- C2 (amended): awarding 250 XP to the walk skill from {xp: 0, level: 1}
yields level 3 with the full 250 xp retained; in general the level is
recomputed inside one award from the fixed cumulative thresholds
[0, 100, 250, 500, 1000, 2000] — xp of at least 100 gives level 2, at
least 250 level 3, and so on up to level 6 at 2000 — while xp is never
modified by leveling and the level never decreases. -/
theorem recordAction_cumulative_thresholds :
    ((PlayerProfile.recordAction (PlayerProfile.initState true) "walk" 250).experience.walk =
      { xp := 250, level := 3 }) ∧
    (∀ sk : PlayerProfile.SkillXP,
      (PlayerProfile.updateLevelSkill sk).xp = sk.xp ∧
      sk.level ≤ (PlayerProfile.updateLevelSkill sk).level) ∧
    (∀ x : ℚ, PlayerProfile.computeLevel x =
      if 2000 ≤ x then 6 else if 1000 ≤ x then 5 else if 500 ≤ x then 4
      else if 250 ≤ x then 3 else if 100 ≤ x then 2 else 1) := by
  refine ⟨?_, fun sk => ?_, fun x => ?_⟩
  · norm_num [PlayerProfile.recordAction, PlayerProfile.Experience.find?,
      PlayerProfile.Experience.update, PlayerProfile.initState, PlayerProfile.initProfile,
      PlayerProfile.initSteps, PlayerProfile.updateLevelSkill, PlayerProfile.computeLevel,
      PlayerProfile.levelThresholds, PlayerProfile.levelScan]
  · unfold PlayerProfile.updateLevelSkill
    dsimp only
    constructor
    · split <;> rfl
    · split <;> simp_all
      omega
  · simp only [PlayerProfile.computeLevel, PlayerProfile.levelThresholds, List.drop,
      PlayerProfile.levelScan]
    split_ifs <;> first | rfl | linarith

theorem updateTutorialInstructionsS_fitPasses (s : PlayerProfile.State) :
    (PlayerProfile.updateTutorialInstructionsS s).fitPasses = s.fitPasses := by
  unfold PlayerProfile.updateTutorialInstructionsS
  split <;> rfl

theorem updateTutorialInstructionsS_modelReady (s : PlayerProfile.State) :
    (PlayerProfile.updateTutorialInstructionsS s).modelReady = s.modelReady := by
  unfold PlayerProfile.updateTutorialInstructionsS
  split <;> rfl

theorem bumpCount_fitPasses (s : PlayerProfile.State) (a : String) :
    (PlayerProfile.bumpCount s a).fitPasses = s.fitPasses := by
  unfold PlayerProfile.bumpCount
  split_ifs <;> rfl

theorem bumpCount_modelReady (s : PlayerProfile.State) (a : String) :
    (PlayerProfile.bumpCount s a).modelReady = s.modelReady := by
  unfold PlayerProfile.bumpCount
  split_ifs <;> rfl

theorem recordSampleCore_fitPasses (s : PlayerProfile.State) (t k : String) (v : ℚ) :
    (PlayerProfile.recordSampleCore s t k v).fitPasses = s.fitPasses := by
  unfold PlayerProfile.recordSampleCore
  split
  · split
    · split
      · rfl
      · rw [updateTutorialInstructionsS_fitPasses]
        split <;> simp [bumpCount_fitPasses]
    · rfl
  · rfl

theorem recordSampleCore_modelReady (s : PlayerProfile.State) (t k : String) (v : ℚ) :
    (PlayerProfile.recordSampleCore s t k v).modelReady = s.modelReady := by
  unfold PlayerProfile.recordSampleCore
  split
  · split
    · split
      · rfl
      · rw [updateTutorialInstructionsS_modelReady]
        split <;> simp [bumpCount_modelReady]
    · rfl
  · rfl

theorem recordSample_fitPasses (s : PlayerProfile.State) (t : String) (v : ℚ)
    (h : s.modelReady = true) :
    (PlayerProfile.recordSample s t v).fitPasses =
      s.fitPasses + (if t = "walk" ∨ t = "punchVelocity" then 1 else 0) := by
  by_cases hv : t ∈ PlayerProfile.validTypes
  · simp only [PlayerProfile.validTypes, List.mem_cons, List.not_mem_nil, or_false] at hv
    rcases hv with rfl | rfl | rfl | rfl | rfl <;>
      simp [PlayerProfile.recordSample, PlayerProfile.validTypes, PlayerProfile.sampleKey,
        PlayerProfile.trainModelS, recordSampleCore_modelReady, recordSampleCore_fitPasses, h]
  · have h1 : t ≠ "walk" := by rintro rfl; exact hv (by simp [PlayerProfile.validTypes])
    have h2 : t ≠ "punchVelocity" := by rintro rfl; exact hv (by simp [PlayerProfile.validTypes])
    simp [PlayerProfile.recordSample, hv, h1, h2]

theorem updateTutorialInstructionsS_trainingWalk (s : PlayerProfile.State) :
    (PlayerProfile.updateTutorialInstructionsS s).trainingWalk = s.trainingWalk := by
  unfold PlayerProfile.updateTutorialInstructionsS
  split <;> rfl

theorem bumpCount_trainingWalk (s : PlayerProfile.State) (a : String) :
    (PlayerProfile.bumpCount s a).trainingWalk = s.trainingWalk := by
  unfold PlayerProfile.bumpCount
  split_ifs <;> rfl

theorem recordSampleCore_trainingWalk (s : PlayerProfile.State) (t k : String) (v : ℚ) :
    (PlayerProfile.recordSampleCore s t k v).trainingWalk = s.trainingWalk := by
  unfold PlayerProfile.recordSampleCore
  split
  · split
    · split
      · rfl
      · rw [updateTutorialInstructionsS_trainingWalk]
        split <;> simp [bumpCount_trainingWalk]
    · rfl
  · rfl

theorem recordSample_trainingWalk_length (s : PlayerProfile.State) (t : String) (v : ℚ) :
    (PlayerProfile.recordSample s t v).trainingWalk.length =
      s.trainingWalk.length + (if t = "walk" then 1 else 0) := by
  by_cases hv : t ∈ PlayerProfile.validTypes
  · simp only [PlayerProfile.validTypes, List.mem_cons, List.not_mem_nil, or_false] at hv
    rcases hv with rfl | rfl | rfl | rfl | rfl <;>
      simp [PlayerProfile.recordSample, PlayerProfile.validTypes, PlayerProfile.sampleKey,
        PlayerProfile.trainModelS, recordSampleCore_trainingWalk] <;>
      split <;> simp [recordSampleCore_trainingWalk]
  · have h1 : t ≠ "walk" := by rintro rfl; exact hv (by simp [PlayerProfile.validTypes])
    simp [PlayerProfile.recordSample, hv, h1]

theorem recordSample_modelReady (s : PlayerProfile.State) (t : String) (v : ℚ) :
    (PlayerProfile.recordSample s t v).modelReady = s.modelReady := by
  by_cases hv : t ∈ PlayerProfile.validTypes
  · simp only [PlayerProfile.validTypes, List.mem_cons, List.not_mem_nil, or_false] at hv
    rcases hv with rfl | rfl | rfl | rfl | rfl <;>
      simp [PlayerProfile.recordSample, PlayerProfile.validTypes, PlayerProfile.sampleKey,
        PlayerProfile.trainModelS, recordSampleCore_modelReady] <;>
      split <;> simp [recordSampleCore_modelReady]
  · simp [PlayerProfile.recordSample, hv]

theorem runSamples_fitPasses (ops : List (String × ℚ)) :
    ∀ s : PlayerProfile.State, s.modelReady = true →
      (PlayerProfile.runSamples s ops).fitPasses =
        s.fitPasses + ops.countP (fun p => p.1 == "walk" || p.1 == "punchVelocity") := by
  induction ops with
  | nil => intro s _; simp [PlayerProfile.runSamples]
  | cons op ops ih =>
    intro s hs
    have hstep := recordSample_fitPasses s op.1 op.2 hs
    have hready : (PlayerProfile.recordSample s op.1 op.2).modelReady = true := by
      rw [recordSample_modelReady]; exact hs
    have := ih (PlayerProfile.recordSample s op.1 op.2) hready
    simp only [PlayerProfile.runSamples, List.foldl_cons] at this ⊢
    rw [this, hstep, List.countP_cons]
    by_cases hw : op.1 = "walk" ∨ op.1 = "punchVelocity"
    · have hb : (op.1 == "walk" || op.1 == "punchVelocity") = true := by
        rcases hw with h | h <;> simp [h]
      simp [hw, hb]; omega
    · have hb : (op.1 == "walk" || op.1 == "punchVelocity") = false := by
        push_neg at hw
        simp [hw.1, hw.2]
      simp [hw, hb]

/-- C8 counterexample: two `recordSample('walk', 1)` calls from the fresh
state — with only one and then two queued training examples, and with no
time passing at all (time is not even an input of this path) — each
synchronously initiate a `model.fit` pass: there is no 5000 ms interval, no
10-example minimum and no in-flight guard anywhere on the path. -/
theorem trainModel_unguarded_two_passes :
    (PlayerProfile.runSamples (PlayerProfile.initState true) [("walk", 1), ("walk", 1)]).fitPasses = 2 ∧
    (PlayerProfile.runSamples (PlayerProfile.initState true) [("walk", 1), ("walk", 1)]).trainingWalk.length = 2 := by
  constructor
  · have h := runSamples_fitPasses [("walk", 1), ("walk", 1)] (PlayerProfile.initState true) rfl
    simp only [List.countP_cons, List.countP_nil] at h
    simpa [PlayerProfile.initState] using h
  · have h1 := recordSample_trainingWalk_length (PlayerProfile.initState true) "walk" 1
    have h2 := recordSample_trainingWalk_length
      (PlayerProfile.recordSample (PlayerProfile.initState true) "walk" 1) "walk" 1
    simp only [PlayerProfile.runSamples, List.foldl_cons, List.foldl_nil]
    rw [h2, h1]
    simp [PlayerProfile.initState]

/-- C8 (amended): a classifier fit pass is initiated synchronously on every
`recordSample` call of kind `walk` or `punchVelocity` whenever the model is
initialized — with no minimum queue size, no 5000 ms spacing and no
in-flight or pending-rerun coalescing: over any call sequence from the
fresh state the number of initiated passes equals the number of such
calls. -/
theorem fit_passes_every_walk_or_punch_sample (ops : List (String × ℚ)) :
    (PlayerProfile.runSamples (PlayerProfile.initState true) ops).fitPasses =
      ops.countP (fun p => p.1 == "walk" || p.1 == "punchVelocity") := by
  have := runSamples_fitPasses ops (PlayerProfile.initState true) rfl
  simpa [PlayerProfile.initState] using this

theorem trainModelS_samples (s : PlayerProfile.State) :
    (PlayerProfile.trainModelS s).samples = s.samples := by
  unfold PlayerProfile.trainModelS
  split <;> rfl

theorem trainModelS_tutorialActive (s : PlayerProfile.State) :
    (PlayerProfile.trainModelS s).tutorialActive = s.tutorialActive := by
  unfold PlayerProfile.trainModelS
  split <;> rfl

theorem sampleKey_none_of_invalid (t : String) (hv : t ∉ PlayerProfile.validTypes) :
    PlayerProfile.sampleKey t = none := by
  have h1 : t ≠ "shoulderDistance" := by rintro rfl; exact hv (by simp [PlayerProfile.validTypes])
  have h2 : t ≠ "walk" := by rintro rfl; exact hv (by simp [PlayerProfile.validTypes])
  have h3 : t ≠ "turn" := by rintro rfl; exact hv (by simp [PlayerProfile.validTypes])
  have h4 : t ≠ "punchVelocity" := by rintro rfl; exact hv (by simp [PlayerProfile.validTypes])
  have h5 : t ≠ "punchElbowAngle" := by rintro rfl; exact hv (by simp [PlayerProfile.validTypes])
  simp [PlayerProfile.sampleKey, h1, h2, h3, h4, h5]

theorem recordSample_inactive_samples (s : PlayerProfile.State) (t : String) (v : ℚ)
    (h : s.tutorialActive = false) :
    (PlayerProfile.recordSample s t v).samples =
      (match PlayerProfile.sampleKey t with
       | none => s.samples
       | some key => s.samples.set key (PlayerProfile.pushDrop (s.samples.get key) v)) := by
  by_cases hv : t ∈ PlayerProfile.validTypes
  · simp only [PlayerProfile.validTypes, List.mem_cons, List.not_mem_nil, or_false] at hv
    rcases hv with rfl | rfl | rfl | rfl | rfl <;>
      simp [PlayerProfile.recordSample, PlayerProfile.validTypes, PlayerProfile.sampleKey,
        PlayerProfile.recordSampleCore, h, trainModelS_samples, PlayerProfile.updateProfileS]
  · simp [PlayerProfile.recordSample, hv, sampleKey_none_of_invalid t hv]

theorem recordSample_inactive_tutorialActive (s : PlayerProfile.State) (t : String) (v : ℚ)
    (h : s.tutorialActive = false) :
    (PlayerProfile.recordSample s t v).tutorialActive = false := by
  by_cases hv : t ∈ PlayerProfile.validTypes
  · simp only [PlayerProfile.validTypes, List.mem_cons, List.not_mem_nil, or_false] at hv
    rcases hv with rfl | rfl | rfl | rfl | rfl <;>
      simp [PlayerProfile.recordSample, PlayerProfile.validTypes, PlayerProfile.sampleKey,
        PlayerProfile.recordSampleCore, h, trainModelS_tutorialActive, PlayerProfile.updateProfileS]
  · simp [PlayerProfile.recordSample, hv, h]

theorem pushDrop_length_le (l : List ℚ) (v : ℚ) (h : l.length ≤ 100) :
    (PlayerProfile.pushDrop l v).length ≤ 100 := by
  unfold PlayerProfile.pushDrop
  dsimp only
  split
  · simp only [List.length_tail, List.length_append, List.length_cons, List.length_nil]
    omega
  · next hle => exact Nat.le_of_not_lt hle

theorem Samples_get_set_same (sm : PlayerProfile.Samples) (key : String) (l : List ℚ) :
    (sm.set key l).get key = l := by
  unfold PlayerProfile.Samples.set PlayerProfile.Samples.get
  split_ifs <;> rfl

theorem Samples_bounded_set (sm : PlayerProfile.Samples) (key : String) (l : List ℚ)
    (h : sm.bounded) (hl : l.length ≤ 100) : (sm.set key l).bounded := by
  simp only [PlayerProfile.Samples.bounded] at h
  simp only [PlayerProfile.Samples.bounded, PlayerProfile.Samples.set]
  split_ifs <;> simp_all

theorem runSamples_bounded_aux (ops : List (String × ℚ)) :
    ∀ s : PlayerProfile.State, s.tutorialActive = false → s.samples.bounded →
      (PlayerProfile.runSamples s ops).tutorialActive = false ∧
      (PlayerProfile.runSamples s ops).samples.bounded := by
  induction ops with
  | nil => intro s h hb; exact ⟨h, hb⟩
  | cons op ops ih =>
    intro s h hb
    have hact := recordSample_inactive_tutorialActive s op.1 op.2 h
    have hsm := recordSample_inactive_samples s op.1 op.2 h
    have hb' : (PlayerProfile.recordSample s op.1 op.2).samples.bounded := by
      rw [hsm]
      cases hk : PlayerProfile.sampleKey op.1 with
      | none => simpa using hb
      | some key =>
        simp only
        exact Samples_bounded_set _ _ _ hb (pushDrop_length_le _ _ (by
          rcases hb with ⟨b1, b2, b3, b4⟩
          unfold PlayerProfile.Samples.get
          split_ifs <;> assumption))
    simpa [PlayerProfile.runSamples] using ih (PlayerProfile.recordSample s op.1 op.2) hact hb'

/-- C1: over any sequence of `recordSample` calls from the fresh state
(where no tutorial is active and none can become active), every one of the
four sample windows holds at most 100 entries after every call (every
prefix of a call sequence being itself a call sequence); and a recognized
sample arriving at a full window evicts the oldest entry: the backing
array becomes its tail with the new value appended. -/
theorem recordSample_window_capacity :
    (∀ ops : List (String × ℚ),
      (PlayerProfile.runSamples (PlayerProfile.initState true) ops).samples.bounded) ∧
    (∀ (s : PlayerProfile.State) (t key : String) (v : ℚ), s.tutorialActive = false →
      PlayerProfile.sampleKey t = some key →
      (s.samples.get key).length = 100 →
      (PlayerProfile.recordSample s t v).samples.get key = (s.samples.get key).tail ++ [v]) := by
  constructor
  · intro ops
    exact (runSamples_bounded_aux ops (PlayerProfile.initState true) rfl
      (by simp [PlayerProfile.initState, PlayerProfile.Samples.bounded])).2
  · intro s t key v h hk hlen
    rw [recordSample_inactive_samples s t v h, hk]
    simp only [Samples_get_set_same]
    unfold PlayerProfile.pushDrop
    dsimp only
    have hne : s.samples.get key ≠ [] := by
      intro hc; rw [hc] at hlen; simp at hlen
    rw [if_pos (by simp [hlen])]
    exact List.tail_append_of_ne_nil hne

/-- C1 witness: a concrete one-call sequence stays bounded, and a `walk`
sample hitting a full 100-entry cadence window drops its oldest entry. -/
theorem recordSample_window_capacity_witness :
    (PlayerProfile.runSamples (PlayerProfile.initState true) [("walk", 1)]).samples.bounded ∧
    (PlayerProfile.capacityWitnessState.samples.get "walkingCadences").length = 100 ∧
    (PlayerProfile.recordSample PlayerProfile.capacityWitnessState "walk" 2).samples.get "walkingCadences" =
      (PlayerProfile.capacityWitnessState.samples.get "walkingCadences").tail ++ [2] :=
  ⟨recordSample_window_capacity.1 [("walk", 1)],
   by simp [PlayerProfile.capacityWitnessState, PlayerProfile.Samples.get, PlayerProfile.initState],
   recordSample_window_capacity.2 PlayerProfile.capacityWitnessState "walk" "walkingCadences" 2 rfl rfl
     (by simp [PlayerProfile.capacityWitnessState, PlayerProfile.Samples.get, PlayerProfile.initState])⟩

theorem pushDrop_ne_nil (l : List ℚ) (v : ℚ) : PlayerProfile.pushDrop l v ≠ [] := by
  unfold PlayerProfile.pushDrop
  dsimp only
  split
  · next hgt =>
    intro hc
    have := congrArg List.length hc
    simp only [List.length_tail, List.length_append, List.length_cons, List.length_nil] at this hgt
    omega
  · simp

theorem recordSample_turn_eq (s : PlayerProfile.State) (v : ℚ)
    (h : s.tutorialActive = false) :
    PlayerProfile.recordSample s "turn" v =
      PlayerProfile.updateProfileS
        { s with samples :=
            s.samples.set "shoulderDistances" (PlayerProfile.pushDrop s.samples.shoulderDistances v) } := by
  simp [PlayerProfile.recordSample, PlayerProfile.validTypes, PlayerProfile.sampleKey,
    PlayerProfile.recordSampleCore, h, PlayerProfile.Samples.get]

/-- C10: the sample kinds `turn` and `shoulderDistance` select the same
backing array, `shoulderDistances`; outside an active tutorial a recorded
`turn` sample is appended (drop-oldest) to that shared array and the
immediate recompute sets `profile.baselineShoulderDistance` to the mean of
the array as just updated. -/
theorem turn_sample_shared_buffer (s : PlayerProfile.State) (v : ℚ)
    (h : s.tutorialActive = false) :
    PlayerProfile.sampleKey "turn" = some "shoulderDistances" ∧
    PlayerProfile.sampleKey "shoulderDistance" = some "shoulderDistances" ∧
    (PlayerProfile.recordSample s "turn" v).samples.shoulderDistances =
      PlayerProfile.pushDrop s.samples.shoulderDistances v ∧
    (PlayerProfile.recordSample s "shoulderDistance" v).samples.shoulderDistances =
      (PlayerProfile.recordSample s "turn" v).samples.shoulderDistances ∧
    (PlayerProfile.recordSample s "turn" v).profile.baselineShoulderDistance =
      listMean (PlayerProfile.recordSample s "turn" v).samples.shoulderDistances := by
  have hsd : (PlayerProfile.recordSample s "shoulderDistance" v).samples =
      s.samples.set "shoulderDistances" (PlayerProfile.pushDrop (s.samples.get "shoulderDistances") v) := by
    simpa [PlayerProfile.sampleKey] using recordSample_inactive_samples s "shoulderDistance" v h
  refine ⟨rfl, rfl, ?_, ?_, ?_⟩
  · rw [recordSample_turn_eq s v h]
    simp [PlayerProfile.updateProfileS, PlayerProfile.Samples.set]
  · rw [hsd, recordSample_turn_eq s v h]
    simp [PlayerProfile.updateProfileS, PlayerProfile.Samples.set, PlayerProfile.Samples.get]
  · rw [recordSample_turn_eq s v h]
    simp [PlayerProfile.updateProfileS, PlayerProfile.Samples.set,
      List.isEmpty_iff, pushDrop_ne_nil]

/-- C10 witness: a concrete `turn` sample from the fresh state lands in
`shoulderDistances` and resets the baseline to that array's mean. -/
theorem turn_sample_shared_buffer_witness :
    (PlayerProfile.initState true).tutorialActive = false ∧
    (PlayerProfile.recordSample (PlayerProfile.initState true) "turn" 3).samples.shoulderDistances =
      PlayerProfile.pushDrop (PlayerProfile.initState true).samples.shoulderDistances 3 ∧
    (PlayerProfile.recordSample (PlayerProfile.initState true) "turn" 3).profile.baselineShoulderDistance =
      listMean (PlayerProfile.recordSample (PlayerProfile.initState true) "turn" 3).samples.shoulderDistances :=
  ⟨rfl, (turn_sample_shared_buffer (PlayerProfile.initState true) 3 rfl).2.2.1,
    (turn_sample_shared_buffer (PlayerProfile.initState true) 3 rfl).2.2.2.2⟩

/-- C6: within one frame at most one punch is resolved, and the left hand
is evaluated first: the left hand fires exactly when its forward velocity
exceeds `punchVelocityThreshold`, its elbow angle exceeds
`punchElbowAngleThreshold` and the shoulder-distance ratio is below 0.9;
the right hand fires exactly when it meets those conditions and the left
hand does not; no hand fires otherwise; and the punch-velocity /
elbow-angle samples recorded to the profile are exactly the firing hand's
pair (none when no hand fires). -/
theorem punch_left_priority_resolution (p : MotionCapture.PunchInput) :
    ((MotionCapture.punchStep p).1 = some MotionCapture.Hand.left ↔ MotionCapture.leftQualifies p) ∧
    ((MotionCapture.punchStep p).1 = some MotionCapture.Hand.right ↔
      (MotionCapture.rightQualifies p ∧ ¬ MotionCapture.leftQualifies p)) ∧
    ((MotionCapture.punchStep p).1 = none ↔
      (¬ MotionCapture.leftQualifies p ∧ ¬ MotionCapture.rightQualifies p)) ∧
    (MotionCapture.punchStep p).2 = MotionCapture.punchSamples p (MotionCapture.punchStep p).1 := by
  unfold MotionCapture.punchStep
  by_cases hl : MotionCapture.leftQualifies p <;>
    by_cases hr : MotionCapture.rightQualifies p <;>
    simp [hl, hr, MotionCapture.punchSamples]

/-- C9 counterexample: after a single accepted step has set a nonzero
impulse velocity, the next two update frames (decay factor 1/2, no further
accepted step — `MotionCapture` itself never awards XP, it only records a
'walk' sample) each request +1 'walking' XP when the profile exposes
`awardXP`, so the requests track frames with residual velocity, not
accepted steps; and with `awardXP` unavailable — the case of the
repository's `PlayerProfile` — the very same frames request nothing. -/
theorem walking_xp_per_frame_not_per_step :
    (Player.updateMotion true (1/2) (Player.updateMotion true (1/2)
      { velocity := ⟨0, 0, 1⟩, stepCount := 0, walkingAwards := [] })).walkingAwards = [1, 1] ∧
    (Player.updateMotion false (1/2) (Player.updateMotion false (1/2)
      { velocity := ⟨0, 0, 1⟩, stepCount := 0, walkingAwards := [] })).walkingAwards = [] := by
  norm_num [Player.updateMotion, Player.Vec3.scale, Player.Vec3.len2]

/-- C9 (amended): in the motion path XP requests are per update frame, not
per accepted step. With `awardXP` available, every frame whose decayed
velocity is still nonzero appends a +1 'walking' request, plus a +100
request with a counter reset when the per-frame counter reaches 2112; the
squared velocity is scaled by the square of the (always positive)
exponential decay factor, hence stays nonzero, so one accepted step keeps
generating requests on every later frame. With `awardXP` unavailable — the
repository's `PlayerProfile` defines `recordAction` but no `awardXP` — no
request is ever issued. -/
theorem updateMotion_award_semantics (decay : ℚ) (s : Player.PState)
    (hd : 0 < decay) (hv : 0 < s.velocity.len2) :
    ((Player.updateMotion true decay s).walkingAwards =
      s.walkingAwards ++ [1] ++ (if 2112 ≤ s.stepCount + 1 then [100] else [])) ∧
    (Player.updateMotion true decay s).velocity.len2 = decay ^ 2 * s.velocity.len2 ∧
    0 < (Player.updateMotion true decay s).velocity.len2 ∧
    (∀ (d : ℚ) (u : Player.PState), (Player.updateMotion false d u).walkingAwards = u.walkingAwards) := by
  have hlen : (Player.Vec3.scale decay s.velocity).len2 = decay ^ 2 * s.velocity.len2 := by
    unfold Player.Vec3.scale Player.Vec3.len2
    ring
  have hpos : 0 < decay ^ 2 * s.velocity.len2 := mul_pos (by positivity) hv
  have hpos' : 0 < (Player.Vec3.scale decay s.velocity).len2 := by rw [hlen]; exact hpos
  have hstep : Player.updateMotion true decay s =
      (if 2112 ≤ s.stepCount + 1 then
        { velocity := Player.Vec3.scale decay s.velocity, stepCount := 0,
          walkingAwards := s.walkingAwards ++ [1, 100] }
       else
        { velocity := Player.Vec3.scale decay s.velocity, stepCount := s.stepCount + 1,
          walkingAwards := s.walkingAwards ++ [1] }) := by
    by_cases hb : 2112 ≤ s.stepCount + 1 <;>
      simp [Player.updateMotion, hb, hpos']
  refine ⟨?_, ?_, ?_, ?_⟩
  · rw [hstep]
    split <;> simp
  · rw [hstep]
    split <;> exact hlen
  · rw [hstep]
    split <;> exact hpos'
  · intro d u
    unfold Player.updateMotion
    dsimp only
    split <;> rfl

/-- C9 witness: the amended behaviour evaluated at a concrete frame. -/
theorem updateMotion_award_semantics_witness :
    ((0:ℚ) < 1/2) ∧
    (0 < (Player.Vec3.mk 0 0 1).len2) ∧
    ((Player.updateMotion true (1/2)
        { velocity := ⟨0, 0, 1⟩, stepCount := 0, walkingAwards := [] }).walkingAwards =
      ([] : List ℚ) ++ [1] ++ (if 2112 ≤ 0 + 1 then [100] else [])) :=
  ⟨by norm_num, by norm_num [Player.Vec3.len2],
    (updateMotion_award_semantics (1/2)
      { velocity := ⟨0, 0, 1⟩, stepCount := 0, walkingAwards := [] }
      (by norm_num) (by norm_num [Player.Vec3.len2])).1⟩

theorem trainModelS_profile (s : PlayerProfile.State) :
    (PlayerProfile.trainModelS s).profile = s.profile := by
  unfold PlayerProfile.trainModelS
  split <;> rfl

theorem trainModelS_tutorialSteps (s : PlayerProfile.State) :
    (PlayerProfile.trainModelS s).tutorialSteps = s.tutorialSteps := by
  unfold PlayerProfile.trainModelS
  split <;> rfl

theorem trainModelS_walkCount (s : PlayerProfile.State) :
    (PlayerProfile.trainModelS s).walkCount = s.walkCount := by
  unfold PlayerProfile.trainModelS
  split <;> rfl

theorem recordSample_tutorial_walk_pending (s : PlayerProfile.State) (v : ℚ)
    (hact : s.tutorialActive = true)
    (hsteps : s.tutorialSteps =
      [⟨"walk", 10, false⟩, ⟨"turn", 10, false⟩, ⟨"punch", 10, false⟩]) :
    (PlayerProfile.recordSample s "walk" v).tutorialActive = true ∧
    (PlayerProfile.recordSample s "walk" v).profile = s.profile ∧
    (PlayerProfile.recordSample s "walk" v).walkCount = s.walkCount + 1 ∧
    (PlayerProfile.recordSample s "walk" v).tutorialSteps =
      (if 10 ≤ s.walkCount + 1 then
        [⟨"walk", 10, true⟩, ⟨"turn", 10, false⟩, ⟨"punch", 10, false⟩]
       else s.tutorialSteps) := by
  by_cases hb : 10 ≤ s.walkCount + 1 <;>
    simp [PlayerProfile.recordSample, PlayerProfile.validTypes, PlayerProfile.sampleKey,
      PlayerProfile.recordSampleCore, hact, hsteps, hb, PlayerProfile.bumpCount,
      PlayerProfile.getCount, PlayerProfile.markComplete,
      PlayerProfile.updateTutorialInstructionsS, trainModelS_tutorialActive,
      trainModelS_profile, trainModelS_tutorialSteps, trainModelS_walkCount]

theorem tutorial_walk_aux (vs : List ℚ) :
    ∀ s : PlayerProfile.State, s.tutorialActive = true →
      s.tutorialSteps = [⟨"walk", 10, false⟩, ⟨"turn", 10, false⟩, ⟨"punch", 10, false⟩] →
      s.walkCount + vs.length = 10 → vs.length ≠ 0 →
      (PlayerProfile.runSamples s (vs.map (fun v => ("walk", v)))).tutorialSteps =
        [⟨"walk", 10, true⟩, ⟨"turn", 10, false⟩, ⟨"punch", 10, false⟩] ∧
      (PlayerProfile.runSamples s (vs.map (fun v => ("walk", v)))).profile = s.profile ∧
      (PlayerProfile.runSamples s (vs.map (fun v => ("walk", v)))).tutorialActive = true := by
  induction vs with
  | nil => intro s _ _ _ hne; simp at hne
  | cons v vs ih =>
    intro s hact hsteps hcount _
    obtain ⟨hact', hprof', hcount', hsteps'⟩ := recordSample_tutorial_walk_pending s v hact hsteps
    simp only [List.map_cons, PlayerProfile.runSamples, List.foldl_cons]
    rcases List.eq_nil_or_concat vs with hnil | _
    · subst hnil
      have h9 : s.walkCount = 9 := by simpa using hcount
      rw [h9] at hsteps'
      simp only [List.map_nil, List.foldl_nil]
      refine ⟨by simpa using hsteps', hprof', hact'⟩
    · have hvs : vs.length ≠ 0 := by
        rcases vs with _ | _
        · simp_all
        · simp
      have hlt : ¬ 10 ≤ s.walkCount + 1 := by
        simp only [List.length_cons] at hcount
        omega
      rw [if_neg hlt, hsteps] at hsteps'
      have hcount2 : (PlayerProfile.recordSample s "walk" v).walkCount + vs.length = 10 := by
        rw [hcount']
        simp only [List.length_cons] at hcount
        omega
      have := ih (PlayerProfile.recordSample s "walk" v) hact' hsteps' hcount2 hvs
      simp only [PlayerProfile.runSamples] at this
      exact ⟨this.1, this.2.1.trans hprof', this.2.2⟩

/-- C7: starting a tutorial (from any state whose step table is the
constructor's, in any completion state) and then recording 10 'walk'
samples completes the walk step, leaves the tutorial active with 'turn' as
the pending step, and leaves `profile.walkingCadence` (indeed the whole
profile) untouched: no recompute runs while a step is still incomplete. -/
theorem tutorial_walk_advances (s : PlayerProfile.State) (vs : List ℚ)
    (hsteps : s.tutorialSteps.map (fun st => { st with complete := false }) =
      PlayerProfile.initSteps)
    (hlen : vs.length = 10) :
    (PlayerProfile.runSamples (PlayerProfile.startTutorialS s)
        (vs.map (fun v => ("walk", v)))).tutorialSteps =
      [⟨"walk", 10, true⟩, ⟨"turn", 10, false⟩, ⟨"punch", 10, false⟩] ∧
    PlayerProfile.pendingAction (PlayerProfile.runSamples (PlayerProfile.startTutorialS s)
        (vs.map (fun v => ("walk", v)))) = some "turn" ∧
    (PlayerProfile.runSamples (PlayerProfile.startTutorialS s)
        (vs.map (fun v => ("walk", v)))).tutorialActive = true ∧
    (PlayerProfile.runSamples (PlayerProfile.startTutorialS s)
        (vs.map (fun v => ("walk", v)))).profile.walkingCadence =
      s.profile.walkingCadence := by
  have hstart : PlayerProfile.startTutorialS s =
      { s with tutorialActive := true, walkCount := 0, turnCount := 0, punchCount := 0,
               tutorialSteps := PlayerProfile.initSteps } := by
    unfold PlayerProfile.startTutorialS
    rw [hsteps]
    unfold PlayerProfile.updateTutorialInstructionsS
    simp [PlayerProfile.initSteps]
  have := tutorial_walk_aux vs
    { s with tutorialActive := true, walkCount := 0, turnCount := 0, punchCount := 0,
             tutorialSteps := PlayerProfile.initSteps }
    rfl (by simp [PlayerProfile.initSteps]) (by simpa using hlen) (by simp [hlen])
  rw [hstart]
  refine ⟨this.1, ?_, this.2.2, ?_⟩
  · unfold PlayerProfile.pendingAction
    rw [this.1]
    simp
  · rw [this.2.1]

/-- C7 witness: the theorem evaluated from the fresh state with ten
concrete walk samples. -/
theorem tutorial_walk_advances_witness :
    PlayerProfile.pendingAction (PlayerProfile.runSamples
        (PlayerProfile.startTutorialS (PlayerProfile.initState true))
        ((List.replicate 10 (1:ℚ)).map (fun v => ("walk", v)))) = some "turn" ∧
    (PlayerProfile.runSamples (PlayerProfile.startTutorialS (PlayerProfile.initState true))
        ((List.replicate 10 (1:ℚ)).map (fun v => ("walk", v)))).profile.walkingCadence =
      (PlayerProfile.initState true).profile.walkingCadence :=
  ⟨(tutorial_walk_advances (PlayerProfile.initState true) (List.replicate 10 1)
      rfl (by simp)).2.1,
   (tutorial_walk_advances (PlayerProfile.initState true) (List.replicate 10 1)
      rfl (by simp)).2.2.2⟩

theorem applyMpFrom_length (m : List MotionCapture.MpKp) :
    ∀ (i : ℕ) (lms : List MotionCapture.Pt3),
      (MotionCapture.applyMpFrom i m lms).length = lms.length := by
  induction m with
  | nil => intro i lms; rfl
  | cons kp rest ih =>
    intro i lms
    unfold MotionCapture.applyMpFrom
    rw [ih]
    split <;> simp

theorem applyTf_length (w hq : ℚ) (t : List MotionCapture.TfKp) :
    ∀ lms : List MotionCapture.Pt3,
      (MotionCapture.applyTf w hq t lms).length = lms.length := by
  induction t with
  | nil => intro lms; rfl
  | cons kp rest ih =>
    intro lms
    unfold MotionCapture.applyTf
    rw [ih]
    rcases hmap : MotionCapture.keypointMap kp.id with _ | idx
    · simp [hmap]
    · simp only [hmap]
      by_cases hs : (1:ℚ)/2 < kp.score
      · rw [if_pos hs]
        cases hcur : lms[idx]? with
        | none => rfl
        | some cur =>
          simp only [hcur]
          split <;> simp
      · rw [if_neg hs]

theorem applyMpFrom_getElem?_of_unusable (m : List MotionCapture.MpKp) :
    ∀ (i0 : ℕ) (lms : List MotionCapture.Pt3) (i : ℕ),
      (∀ j kp, m[j]? = some kp → i0 + j = i → kp.visibility ≤ 1/2) →
      (MotionCapture.applyMpFrom i0 m lms)[i]? = lms[i]? := by
  induction m with
  | nil => intro i0 lms i _; rfl
  | cons kp rest ih =>
    intro i0 lms i hun
    unfold MotionCapture.applyMpFrom
    rw [ih (i0 + 1) _ i (fun j kp' hj hij =>
      hun (j + 1) kp' (by simpa using hj) (by omega))]
    split
    · next hvis =>
      have hne : i0 ≠ i := by
        intro he
        have := hun 0 kp (by simp) (by omega)
        linarith
      exact List.getElem?_set_ne hne
    · rfl

theorem applyTf_getElem?_of_unusable (w hq : ℚ) (t : List MotionCapture.TfKp) :
    ∀ (lms : List MotionCapture.Pt3) (i : ℕ),
      (∀ kp ∈ t, MotionCapture.keypointMap kp.id = some i → kp.score ≤ 1/2) →
      (MotionCapture.applyTf w hq t lms)[i]? = lms[i]? := by
  induction t with
  | nil => intro lms i _; rfl
  | cons kp rest ih =>
    intro lms i hun
    unfold MotionCapture.applyTf
    rw [ih _ i (fun kp' hk hm => hun kp' (List.mem_cons_of_mem _ hk) hm)]
    rcases hmap : MotionCapture.keypointMap kp.id with _ | idx
    · simp [hmap]
    · simp only [hmap]
      by_cases hs : (1:ℚ)/2 < kp.score
      · rw [if_pos hs]
        have hne : idx ≠ i := by
          intro he
          have := hun kp (List.mem_cons_self _ _) (he ▸ hmap)
          linarith
        cases hcur : lms[idx]? with
        | none => rfl
        | some cur =>
          simp only [hcur]
          split <;> exact List.getElem?_set_ne hne
      · rw [if_neg hs]

theorem smooth_length (prev : List MotionCapture.Pt3) :
    ∀ fused, (MotionCapture.smooth prev fused).length = prev.length := by
  induction prev with
  | nil => intro fused; rfl
  | cons p ps ih =>
    intro fused
    cases fused with
    | nil => rfl
    | cons k ks => simp only [MotionCapture.smooth, List.length_cons, ih]

theorem smooth_getElem?_retain (prev : List MotionCapture.Pt3) :
    ∀ (fused : List MotionCapture.Pt3) (i : ℕ),
      (fused[i]? = some (MotionCapture.Pt3.mk 0 0 0) ∨ fused[i]? = none) →
      (MotionCapture.smooth prev fused)[i]? = prev[i]? := by
  induction prev with
  | nil => intro fused i _; rfl
  | cons p ps ih =>
    intro fused i hz
    cases fused with
    | nil => rfl
    | cons k ks =>
      cases i with
      | zero =>
        rcases hz with hz | hz
        · simp only [List.getElem?_cons_zero, Option.some.injEq] at hz
          subst hz
          simp [MotionCapture.smooth]
        · simp at hz
      | succ n =>
        simp only [MotionCapture.smooth, List.getElem?_cons_succ]
        exact ih ks n (by simpa using hz)

theorem mpUnusableAt_spec (m : List MotionCapture.MpKp) (i : ℕ)
    (h : MotionCapture.mpUnusableAt (some m) i = true) :
    ∀ j kp, m[j]? = some kp → 0 + j = i → kp.visibility ≤ 1/2 := by
  intro j kp hj hij
  have hji : j = i := by omega
  subst hji
  simp only [MotionCapture.mpUnusableAt] at h
  rw [hj] at h
  simpa using h

theorem replicate33_getElem?_aux (i : ℕ) :
    (List.replicate 33 (MotionCapture.Pt3.mk 0 0 0))[i]? =
      if i < 33 then some (MotionCapture.Pt3.mk 0 0 0) else none :=
  List.getElem?_replicate

theorem tfUnusableAt_spec (t : List MotionCapture.TfKp) (i : ℕ)
    (h : MotionCapture.tfUnusableAt (some t) i = true) :
    ∀ kp ∈ t, MotionCapture.keypointMap kp.id = some i → kp.score ≤ 1/2 := by
  intro kp hk hm
  unfold MotionCapture.tfUnusableAt at h
  rw [List.all_eq_true] at h
  have := h kp hk
  simpa [hm] using this

theorem replicate33_getElem? (i : ℕ) :
    (List.replicate 33 (MotionCapture.Pt3.mk 0 0 0))[i]? = some (MotionCapture.Pt3.mk 0 0 0) ∨
    (List.replicate 33 (MotionCapture.Pt3.mk 0 0 0))[i]? = none := by
  rw [replicate33_getElem?_aux]
  by_cases hi : i < 33
  · left; rw [if_pos hi]
  · right; rw [if_neg hi]

/-- C5: one fusion-and-smoothing pass keeps the smoothed skeleton at its
fixed 33-entry length, and any slot at which neither source offers a
keypoint with confidence strictly above 0.5 retains its previous smoothed
value unchanged. -/
theorem fused_length_retention (w hq : ℚ) (mp : Option (List MotionCapture.MpKp))
    (tfr : Option (List MotionCapture.TfKp)) (prev : List MotionCapture.Pt3)
    (hp : prev.length = 33) :
    (MotionCapture.combineFrame w hq mp tfr prev).length = 33 ∧
    (∀ i : ℕ, MotionCapture.mpUnusableAt mp i = true →
      MotionCapture.tfUnusableAt tfr i = true →
      (MotionCapture.combineFrame w hq mp tfr prev)[i]? = prev[i]?) := by
  constructor
  · cases mp with
    | none =>
      cases tfr with
      | none => simpa [MotionCapture.combineFrame] using hp
      | some t => simp [MotionCapture.combineFrame, smooth_length, hp]
    | some m =>
      cases tfr with
      | none => simp [MotionCapture.combineFrame, smooth_length, hp]
      | some t => simp [MotionCapture.combineFrame, smooth_length, hp]
  · intro i hmp htf
    cases mp with
    | none =>
      cases tfr with
      | none => simp [MotionCapture.combineFrame]
      | some t =>
        have ht := tfUnusableAt_spec t i htf
        simp only [MotionCapture.combineFrame]
        exact smooth_getElem?_retain prev _ i (by
          rw [applyTf_getElem?_of_unusable w hq t _ i ht]
          exact replicate33_getElem? i)
    | some m =>
      have hm := mpUnusableAt_spec m i hmp
      cases tfr with
      | none =>
        simp only [MotionCapture.combineFrame]
        exact smooth_getElem?_retain prev _ i (by
          rw [applyMpFrom_getElem?_of_unusable m 0 _ i hm]
          exact replicate33_getElem? i)
      | some t =>
        have ht := tfUnusableAt_spec t i htf
        simp only [MotionCapture.combineFrame]
        exact smooth_getElem?_retain prev _ i (by
          rw [applyTf_getElem?_of_unusable w hq t _ i ht,
            applyMpFrom_getElem?_of_unusable m 0 _ i hm]
          exact replicate33_getElem? i)

/-- C5 witness: a concrete frame — a full MediaPipe skeleton at visibility
0.4 and one MoveNet keypoint (id 5, mapping to slot 11) at score 0.25 —
leaves a 33-entry previous skeleton entirely unchanged at slot 11, and the
length stays 33. -/
theorem fused_length_retention_witness :
    (List.replicate 33 (MotionCapture.Pt3.mk 1 1 9)).length = 33 ∧
    (MotionCapture.combineFrame 1 1
      (some (List.replicate 33 (MotionCapture.MpKp.mk (1/4) (1/4) 0 (2/5))))
      (some [MotionCapture.TfKp.mk 5 10 10 0 (1/4)])
      (List.replicate 33 (MotionCapture.Pt3.mk 1 1 9))).length = 33 ∧
    (MotionCapture.combineFrame 1 1
      (some (List.replicate 33 (MotionCapture.MpKp.mk (1/4) (1/4) 0 (2/5))))
      (some [MotionCapture.TfKp.mk 5 10 10 0 (1/4)])
      (List.replicate 33 (MotionCapture.Pt3.mk 1 1 9)))[11]? =
      (List.replicate 33 (MotionCapture.Pt3.mk 1 1 9))[11]? := by
  refine ⟨by simp, ?_, ?_⟩
  · exact (fused_length_retention 1 1
      (some (List.replicate 33 (MotionCapture.MpKp.mk (1/4) (1/4) 0 (2/5))))
      (some [MotionCapture.TfKp.mk 5 10 10 0 (1/4)])
      (List.replicate 33 (MotionCapture.Pt3.mk 1 1 9)) (by simp)).1
  · exact (fused_length_retention 1 1
      (some (List.replicate 33 (MotionCapture.MpKp.mk (1/4) (1/4) 0 (2/5))))
      (some [MotionCapture.TfKp.mk 5 10 10 0 (1/4)])
      (List.replicate 33 (MotionCapture.Pt3.mk 1 1 9)) (by simp)).2 11
      (by norm_num [MotionCapture.mpUnusableAt, List.getElem?_replicate])
      (by norm_num [MotionCapture.tfUnusableAt, MotionCapture.keypointMap])

theorem walkStep_dropFrame_left (t : ℚ) (s : MotionCapture.WalkState)
    (hl : s.leftKneeUp = false) (hcool : 300 < t - s.lastStepTime) :
    MotionCapture.walkStep (MotionCapture.dropFrame t true) s =
      { s with leftKneeUp := true, rightKneeUp := false, steps := s.steps + 1,
               lastStepTime := t,
               walkSamples := s.walkSamples ++ [(t - s.lastHipStepTime) / 1000],
               lastHipStepTime := t } := by
  norm_num [MotionCapture.walkStep, MotionCapture.dropFrame, MotionCapture.acceptStep,
    MotionCapture.Pt.usable, MotionCapture.kneeThreshold, MotionCapture.stepCooldown,
    hl, hcool]

theorem walkStep_dropFrame_right (t : ℚ) (s : MotionCapture.WalkState)
    (hr : s.rightKneeUp = false) (hcool : 300 < t - s.lastStepTime) :
    MotionCapture.walkStep (MotionCapture.dropFrame t false) s =
      { s with leftKneeUp := false, rightKneeUp := true, steps := s.steps + 1,
               lastStepTime := t,
               walkSamples := s.walkSamples ++ [(t - s.lastHipStepTime) / 1000],
               lastHipStepTime := t } := by
  norm_num [MotionCapture.walkStep, MotionCapture.dropFrame, MotionCapture.acceptStep,
    MotionCapture.Pt.usable, MotionCapture.kneeThreshold, MotionCapture.stepCooldown,
    hr, hcool]

theorem walkStep_cooldown_blocks (f : MotionCapture.WalkFrame) (s : MotionCapture.WalkState)
    (h : f.now - s.lastStepTime ≤ 300) :
    (MotionCapture.walkStep f s).steps = s.steps := by
  have h' : ¬ MotionCapture.stepCooldown < f.now - s.lastStepTime := by
    unfold MotionCapture.stepCooldown
    linarith
  simp only [MotionCapture.walkStep, MotionCapture.acceptStep]
  simp [h', apply_ite MotionCapture.WalkState.steps]

theorem altScript_steps_aux (ts : List ℚ) :
    ∀ (leftSide : Bool) (s : MotionCapture.WalkState),
      (if leftSide then s.leftKneeUp else s.rightKneeUp) = false →
      List.Chain (fun a b : ℚ => a + 300 < b) s.lastStepTime ts →
      (MotionCapture.runWalk (MotionCapture.altScript ts leftSide) s).steps =
        s.steps + ts.length := by
  induction ts with
  | nil => intro leftSide s _ _; simp [MotionCapture.runWalk, MotionCapture.altScript]
  | cons t ts ih =>
    intro leftSide s hl hchain
    cases hchain with
    | cons hstep hchain' =>
      have hcool : 300 < t - s.lastStepTime := by linarith
      cases leftSide with
      | true =>
        simp at hl
        simp only [MotionCapture.altScript, MotionCapture.runWalk, List.foldl_cons, Bool.not_true]
        rw [walkStep_dropFrame_left t s hl hcool]
        have := ih false
          { s with leftKneeUp := true, rightKneeUp := false, steps := s.steps + 1,
                   lastStepTime := t,
                   walkSamples := s.walkSamples ++ [(t - s.lastHipStepTime) / 1000],
                   lastHipStepTime := t }
          rfl hchain'
        simp only [MotionCapture.runWalk] at this
        rw [this]
        simp only [List.length_cons]
        omega
      | false =>
        simp at hl
        simp only [MotionCapture.altScript, MotionCapture.runWalk, List.foldl_cons, Bool.not_false]
        rw [walkStep_dropFrame_right t s hl hcool]
        have := ih true
          { s with leftKneeUp := false, rightKneeUp := true, steps := s.steps + 1,
                   lastStepTime := t,
                   walkSamples := s.walkSamples ++ [(t - s.lastHipStepTime) / 1000],
                   lastHipStepTime := t }
          rfl hchain'
        simp only [MotionCapture.runWalk] at this
        rw [this]
        simp only [List.length_cons]
        omega

theorem walkStep_no_crossing (f : MotionCapture.WalkFrame) (s : MotionCapture.WalkState)
    (hu : f.leftKnee.usable = true ∧ f.rightKnee.usable = true)
    (hk : MotionCapture.kneeThreshold ≤ f.leftKnee.y - f.leftHip.y ∧
      MotionCapture.kneeThreshold ≤ f.rightKnee.y - f.rightHip.y) :
    (MotionCapture.walkStep f s).steps = s.steps := by
  have hnl : ¬ f.leftKnee.y - f.leftHip.y < MotionCapture.kneeThreshold := not_lt.mpr hk.1
  have hnr : ¬ f.rightKnee.y - f.rightHip.y < MotionCapture.kneeThreshold := not_lt.mpr hk.2
  simp only [MotionCapture.walkStep, hu.1, hu.2, Bool.and_self, if_true]
  simp [hnl, hnr, hk.1, hk.2]

/-- C3 counterexample: the acceptance guard is strict (elapsed > 300 ms, with
the cooldown clock starting at 0). An alternating left/right script with
drops at 400 ms and 700 ms — spaced exactly 300 ms, which the claim counts
as qualifying — yields 1 Step, not 2; and a script with drops at 400 ms and
500 ms — spaced under 300 ms, which the claim says yields zero Steps —
still yields 1 Step, because the first drop arrives more than 300 ms after
the clock start and is accepted. -/
theorem walk_spacing_counterexample :
    (MotionCapture.runWalk (MotionCapture.altScript [400, 700] true)
      MotionCapture.initWalkState).steps = 1 ∧
    (MotionCapture.runWalk (MotionCapture.altScript [400, 500] true)
      MotionCapture.initWalkState).steps = 1 := by
  constructor
  · simp only [MotionCapture.altScript, MotionCapture.runWalk, List.foldl_cons, List.foldl_nil,
      Bool.not_true]
    rw [walkStep_dropFrame_left 400 MotionCapture.initWalkState rfl
      (by norm_num [MotionCapture.initWalkState])]
    rw [walkStep_cooldown_blocks _ _ (by norm_num [MotionCapture.dropFrame])]
    simp [MotionCapture.initWalkState]
  · simp only [MotionCapture.altScript, MotionCapture.runWalk, List.foldl_cons, List.foldl_nil,
      Bool.not_true]
    rw [walkStep_dropFrame_left 400 MotionCapture.initWalkState rfl
      (by norm_num [MotionCapture.initWalkState])]
    rw [walkStep_cooldown_blocks _ _ (by norm_num [MotionCapture.dropFrame])]
    simp [MotionCapture.initWalkState]

/-- C3 (amended): alternating left/right knee drops each arriving strictly
more than 300 ms after the previous accepted step — the cooldown clock
starts at 0, so this includes the first drop — produce exactly one Step
per drop; a frame arriving at most 300 ms after the last accepted step
produces no Step; and frames whose knee heights never fall below −0.05
(with usable knees) produce no Steps at all. -/
theorem walk_strict_cooldown_steps :
    (∀ ts : List ℚ, List.Chain (fun a b : ℚ => a + 300 < b) 0 ts →
      (MotionCapture.runWalk (MotionCapture.altScript ts true)
        MotionCapture.initWalkState).steps = ts.length) ∧
    (∀ (f : MotionCapture.WalkFrame) (s : MotionCapture.WalkState),
      f.now - s.lastStepTime ≤ 300 → (MotionCapture.walkStep f s).steps = s.steps) ∧
    (∀ (fs : List MotionCapture.WalkFrame) (s : MotionCapture.WalkState),
      (∀ f ∈ fs, (f.leftKnee.usable = true ∧ f.rightKnee.usable = true) ∧
        MotionCapture.kneeThreshold ≤ f.leftKnee.y - f.leftHip.y ∧
        MotionCapture.kneeThreshold ≤ f.rightKnee.y - f.rightHip.y) →
      (MotionCapture.runWalk fs s).steps = s.steps) := by
  refine ⟨?_, walkStep_cooldown_blocks, ?_⟩
  · intro ts hchain
    have := altScript_steps_aux ts true MotionCapture.initWalkState rfl
      (by simpa [MotionCapture.initWalkState] using hchain)
    simpa [MotionCapture.initWalkState] using this
  · intro fs
    induction fs with
    | nil => intro s _; rfl
    | cons f fs ih =>
      intro s hf
      simp only [MotionCapture.runWalk, List.foldl_cons]
      have h1 := walkStep_no_crossing f s (hf f (by simp)).1 (hf f (by simp)).2
      have h2 := ih (MotionCapture.walkStep f s) (fun g hg => hf g (by simp [hg]))
      simp only [MotionCapture.runWalk] at h2
      rw [h2, h1]

/-- C3 witness: two drops at 400 ms and 800 ms (each strictly over 300 ms
apart, the first strictly over 300 ms after start) give exactly 2 Steps; a
drop 100 ms after start is rejected by the cooldown. -/
theorem walk_strict_cooldown_steps_witness :
    (MotionCapture.runWalk (MotionCapture.altScript [400, 800] true)
      MotionCapture.initWalkState).steps = 2 ∧
    (MotionCapture.walkStep (MotionCapture.dropFrame 100 true)
      MotionCapture.initWalkState).steps = MotionCapture.initWalkState.steps :=
  ⟨by
    have := walk_strict_cooldown_steps.1 [400, 800]
      (by norm_num [List.chain_cons])
    simpa using this,
   walk_strict_cooldown_steps.2.1 (MotionCapture.dropFrame 100 true)
     MotionCapture.initWalkState
     (by norm_num [MotionCapture.dropFrame, MotionCapture.initWalkState])⟩

theorem turnStep_no_turn (piv : ℚ) (f : MotionCapture.TurnFrame) (s : MotionCapture.TurnState)
    (hlen : MotionCapture.sampleCount ≤ s.distanceSamples.length)
    (hratio : ¬ f.distance / s.baselineShoulderDistance < MotionCapture.distanceThreshold) :
    (MotionCapture.turnStep piv f s).targetYaw = s.targetYaw := by
  have h1 : ¬ s.distanceSamples.length < MotionCapture.sampleCount := not_lt.mpr hlen
  simp only [MotionCapture.turnStep]
  simp [h1, hratio, apply_ite MotionCapture.TurnState.targetYaw]

theorem turnStep_turns_right (piv : ℚ) (f : MotionCapture.TurnFrame) (s : MotionCapture.TurnState)
    (husl : f.leftShoulder.usable = true) (husr : f.rightShoulder.usable = true)
    (hlen : MotionCapture.sampleCount ≤ s.distanceSamples.length)
    (huse : s.useShoulders = true)
    (hDpos : 0 < s.baselineShoulderDistance)
    (hdist : f.distance = (85/100) * s.baselineShoulderDistance)
    (hdom : |MotionCapture.rDelta f s| < |MotionCapture.lDelta f s| ∧ 0 < MotionCapture.lDelta f s)
    (hcl : piv - piv / 2 ≤ s.targetYaw - 3/100)
    (hcr : s.targetYaw - 3/100 ≤ piv + piv / 2) :
    (MotionCapture.turnStep piv f s).targetYaw = s.targetYaw - 3/100 := by
  have h1 : ¬ s.distanceSamples.length < MotionCapture.sampleCount := not_lt.mpr hlen
  have hratio : f.distance / s.baselineShoulderDistance = 85/100 := by
    rw [hdist]
    field_simp
    ring
  simp only [MotionCapture.turnStep]
  simp only [husl, husr, Bool.and_self, if_true, h1, if_false, hratio, huse,
    MotionCapture.distanceThreshold, MotionCapture.profileThreshold]
  norm_num [hdom, apply_ite MotionCapture.TurnState.targetYaw]
  rw [min_eq_right (by linarith), max_eq_right (by linarith)]
  ring

theorem turnStep_bootstrap (piv : ℚ) (f : MotionCapture.TurnFrame) (s : MotionCapture.TurnState)
    (husl : f.leftShoulder.usable = true) (husr : f.rightShoulder.usable = true)
    (hlen : s.distanceSamples.length = 9) :
    (MotionCapture.turnStep piv f s).baselineShoulderDistance =
      (s.distanceSamples ++ [f.distance]).sum / (MotionCapture.sampleCount : ℚ) := by
  have h1 : s.distanceSamples.length < MotionCapture.sampleCount := by
    simp [MotionCapture.sampleCount, hlen]
  have h2 : (s.distanceSamples ++ [f.distance]).length = MotionCapture.sampleCount := by
    simp [MotionCapture.sampleCount, hlen]
  simp only [MotionCapture.turnStep]
  simp [husl, husr, h1, h2, apply_ite MotionCapture.TurnState.baselineShoulderDistance]

/-- C4 counterexample: with an established baseline D = 1/5 and the yaw at
the clamp centre (the clamp parameter standing for π is fixed at the
rational 3 in this closed evaluation; the branch adds a rotation speed of 0
regardless of its value), a frame at inter-shoulder distance 0.85·D whose
shoulders moved no pixel horizontally since the previous frame yields no
yaw adjustment at all: neither direction condition holds, so the rotation
speed is 0 — contradicting the claim that any 0.85·D frame yields a
nonzero yaw adjustment. -/
theorem turn_zero_delta_no_yaw :
    (MotionCapture.turnStep 3
      { leftShoulder := ⟨1/2, 1/2⟩, rightShoulder := ⟨3/10, 1/2⟩,
        distance := (85/100) * (1/5) }
      { distanceSamples := List.replicate 10 (1/5), baselineShoulderDistance := 1/5,
        lastLeftShoulderX := 1/2, lastRightShoulderX := 3/10, targetYaw := 3,
        useShoulders := true, turnSamples := [], shoulderSamples := [] }).targetYaw = 3 := by
  norm_num [MotionCapture.turnStep, MotionCapture.Pt.usable, MotionCapture.sampleCount,
    MotionCapture.distanceThreshold, MotionCapture.profileThreshold, MotionCapture.lDelta,
    MotionCapture.rDelta, apply_ite MotionCapture.TurnState.targetYaw]

/-- C4 (amended): after the tenth valid bootstrap frame sets the baseline to
the mean of the ten sampled distances, a frame at 0.85·D yields a nonzero
yaw adjustment (of −0.03, one intensity step) provided one shoulder's
horizontal delta strictly dominates in the turn direction and the clamped
target stays inside the ±90° window around the base; a frame with no
dominant shoulder delta, and likewise any frame at 0.95·D (ratio at least
0.9), yields no yaw adjustment. All statements hold for every value of the
clamp parameter standing for π. -/
theorem turn_ratio_thresholds :
    (∀ (piv : ℚ) (f : MotionCapture.TurnFrame) (s : MotionCapture.TurnState),
      f.leftShoulder.usable = true → f.rightShoulder.usable = true →
      s.distanceSamples.length = 9 →
      (MotionCapture.turnStep piv f s).baselineShoulderDistance =
        (s.distanceSamples ++ [f.distance]).sum / (MotionCapture.sampleCount : ℚ)) ∧
    (∀ (piv : ℚ) (f : MotionCapture.TurnFrame) (s : MotionCapture.TurnState),
      f.leftShoulder.usable = true → f.rightShoulder.usable = true →
      MotionCapture.sampleCount ≤ s.distanceSamples.length →
      s.useShoulders = true → 0 < s.baselineShoulderDistance →
      f.distance = (85/100) * s.baselineShoulderDistance →
      (|MotionCapture.rDelta f s| < |MotionCapture.lDelta f s| ∧ 0 < MotionCapture.lDelta f s) →
      piv - piv / 2 ≤ s.targetYaw - 3/100 → s.targetYaw - 3/100 ≤ piv + piv / 2 →
      (MotionCapture.turnStep piv f s).targetYaw = s.targetYaw - 3/100 ∧
      (MotionCapture.turnStep piv f s).targetYaw ≠ s.targetYaw) ∧
    (∀ (piv : ℚ) (f : MotionCapture.TurnFrame) (s : MotionCapture.TurnState),
      MotionCapture.sampleCount ≤ s.distanceSamples.length →
      0 < s.baselineShoulderDistance →
      f.distance = (95/100) * s.baselineShoulderDistance →
      (MotionCapture.turnStep piv f s).targetYaw = s.targetYaw) := by
  refine ⟨turnStep_bootstrap, ?_, ?_⟩
  · intro piv f s husl husr hlen huse hDpos hdist hdom hcl hcr
    have h := turnStep_turns_right piv f s husl husr hlen huse hDpos hdist hdom hcl hcr
    exact ⟨h, by rw [h]; intro hc; linarith⟩
  · intro piv f s hlen hDpos hdist
    apply turnStep_no_turn piv f s hlen
    rw [hdist]
    have : (95/100) * s.baselineShoulderDistance / s.baselineShoulderDistance = 95/100 := by
      field_simp
      ring
    rw [this]
    norm_num [MotionCapture.distanceThreshold]

/-- C4 witness: the three amended behaviours evaluated at concrete inputs —
a tenth bootstrap frame, a 0.85·D frame with a dominant leftward-moving
left shoulder, and a 0.95·D frame. -/
theorem turn_ratio_thresholds_witness :
    (MotionCapture.turnStep 3 ⟨⟨1/2, 1/2⟩, ⟨3/10, 1/2⟩, 1/5⟩
      { distanceSamples := List.replicate 9 (1/5), baselineShoulderDistance := 1/5,
        lastLeftShoulderX := 0, lastRightShoulderX := 0, targetYaw := 3,
        useShoulders := true, turnSamples := [], shoulderSamples := [] }).baselineShoulderDistance =
      ((List.replicate 9 ((1:ℚ)/5) ++ [1/5]).sum / (MotionCapture.sampleCount : ℚ)) ∧
    (MotionCapture.turnStep 3 ⟨⟨1/2, 1/2⟩, ⟨3/10, 1/2⟩, (85/100) * (1/5)⟩
      { distanceSamples := List.replicate 10 (1/5), baselineShoulderDistance := 1/5,
        lastLeftShoulderX := 2/5, lastRightShoulderX := 3/10, targetYaw := 3,
        useShoulders := true, turnSamples := [], shoulderSamples := [] }).targetYaw = 3 - 3/100 ∧
    (MotionCapture.turnStep 3 ⟨⟨1/2, 1/2⟩, ⟨3/10, 1/2⟩, (95/100) * (1/5)⟩
      { distanceSamples := List.replicate 10 (1/5), baselineShoulderDistance := 1/5,
        lastLeftShoulderX := 2/5, lastRightShoulderX := 3/10, targetYaw := 3,
        useShoulders := true, turnSamples := [], shoulderSamples := [] }).targetYaw = 3 :=
  ⟨turn_ratio_thresholds.1 3 ⟨⟨1/2, 1/2⟩, ⟨3/10, 1/2⟩, 1/5⟩ _
     (by norm_num [MotionCapture.Pt.usable]) (by norm_num [MotionCapture.Pt.usable])
     (by simp),
   (turn_ratio_thresholds.2.1 3 ⟨⟨1/2, 1/2⟩, ⟨3/10, 1/2⟩, (85/100) * (1/5)⟩ _
     (by norm_num [MotionCapture.Pt.usable]) (by norm_num [MotionCapture.Pt.usable])
     (by simp [MotionCapture.sampleCount]) rfl (by norm_num) rfl
     (by norm_num [MotionCapture.lDelta, MotionCapture.rDelta])
     (by norm_num) (by norm_num)).1,
   turn_ratio_thresholds.2.2 3 ⟨⟨1/2, 1/2⟩, ⟨3/10, 1/2⟩, (95/100) * (1/5)⟩ _
     (by simp [MotionCapture.sampleCount]) (by norm_num) rfl⟩

end WebAdventure
